import Mathlib

/-
Verification of `opentis/pathmover.py` (path-mover framework of the
transition-path-sampling code).  The Python module is shallowly embedded:
pure functions become Lean functions, Python exceptions become an explicit
`Except PyErr` result, the external collaborators (engine, ensembles,
shooting-point selector, SampleSet) are modelled as explicit parameters or,
where the repository code is not part of the excerpt, from the spec.
Randomness (`random.choice`, `np.random.random()`) is passed in as explicit
oracle arguments.
-/

/-- Python-level error outcomes raised by the embedded code.  `typeError`,
`indexError`, `nameError`, `valueError` and `assertionError` mirror the
built-in exceptions the source can raise.  `emptySelectionError` and
`invalidConfigurationError` are modelled from the spec: its error taxonomy
names both, but the source module defines neither class. -/
inductive PyErr where
  | typeError (msg : String)
  | indexError
  | nameError (msg : String)
  | valueError (msg : String)
  | assertionError (msg : String)
  | emptySelectionError
  | invalidConfigurationError
deriving DecidableEq, Repr

/-- A simulation snapshot, opaque to the movers (spec section 3). -/
abbrev Snapshot := Nat

/-- A trajectory is an ordered sequence of snapshots; movers only slice,
concatenate and reverse it (spec section 3). -/
abbrev Trajectory := List Snapshot

/-- Ensembles are external predicate objects; samples and movers refer to
them by an identifier, and the externally supplied membership test is the
`ens` field of `Env` below. -/
abbrev EnsembleId := Nat

/-- Modelled from the spec: external collaborators consumed by the movers.
`ens` is the Ensemble membership predicate (`ensemble(trajectory)`),
`generate` is the outcome of `engine.generate` started from a snapshot (the
halting predicates only bound its length, the produced segment is opaque
here), and `revSnap` is `snapshot.reversed_copy()`. -/
structure Env where
  ens : EnsembleId → Trajectory → Bool
  generate : Snapshot → Trajectory
  revSnap : Snapshot → Snapshot

/-- Trajectory reversal (`trajectory.reversed`): reverse the frame order and
time-reverse each snapshot. -/
def trajReversed (revSnap : Snapshot → Snapshot) (t : Trajectory) : Trajectory :=
  (t.map revSnap).reverse

/-- Modelled from the spec: `ShootingPoint{index, snapshot, bias}` produced
by the external shooting-point selector; `sum_bias` is the unnormalized
selection weight used in the acceptance correction. -/
structure ShootingPoint where
  index : Nat
  snapshot : Snapshot
  sum_bias : ℚ
deriving DecidableEq, Repr

/-- Modelled from the spec: the external ShootingPointSelector.  `pick`
selects a shooting point on a trajectory; `mkPoint` is the
`ShootingPoint(selector, trajectory, index)` constructor, recomputing the
bias of a given index on a (trial) trajectory. -/
structure Selector where
  pick : Trajectory → ShootingPoint
  mkPoint : Trajectory → Nat → ShootingPoint

/-- The MoveDetails attribute bag (lines 62-105 plus the mover-specific
`setattr` fields used in this module).  `MoveDetails()` sets the first six
fields to `None`; movers attach the remaining fields with `setattr`.
`mover` back-references are represented by a numeric mover tag. -/
structure MoveDetails where
  inputs : Option (List Trajectory)
  trial : Option Trajectory
  result : Option Trajectory
  acceptance_probability : Option ℚ
  accepted : Option Bool
  mover : Option Nat
  start : Option Trajectory
  start_point : Option ShootingPoint
  final_point : Option ShootingPoint
  trial_is_in_ensemble : Option Bool
  initial_ensemble : Option EnsembleId
  trial_ensemble : Option EnsembleId
  result_ensemble : Option EnsembleId
  mover_idx : Option Nat
  ensembles : Option (List EnsembleId)
deriving DecidableEq, Repr

/-- The freshly constructed `MoveDetails()` (lines 97-103): every field is
`None`. -/
def MoveDetails.base : MoveDetails :=
  ⟨none, none, none, none, none, none, none, none, none, none, none, none,
   none, none, none⟩

/-- Modelled from the spec: `Sample{replica, trajectory, ensemble, details}`
(immutable record).  `replica` and `details` are optional because
`ReplicaExchange.move` and `ReplicaIDChange.move` construct Samples without
those keyword arguments; `ReplicaExchange.move` additionally passes a
`mover` keyword. -/
structure Sample where
  replica : Option Nat
  trajectory : Trajectory
  ensemble : EnsembleId
  details : Option MoveDetails
  mover : Option Nat
deriving DecidableEq, Repr

/-- Modelled from the spec: the external GlobalState / SampleSet, a
queryable collection of the currently active Samples. -/
abbrev SampleSet := List Sample

/-- Modelled from the spec: `globalstate.replica_list()`, the replica ids
present in the state. -/
def SampleSet.replica_list (s : SampleSet) : List Nat :=
  (s.filterMap (fun x => x.replica)).dedup

/-- Modelled from the spec: `globalstate.all_from_replica(rep)`. -/
def SampleSet.all_from_replica (s : SampleSet) (rep : Nat) : List Sample :=
  s.filter (fun x => x.replica = some rep)

/-- Modelled from the spec: `globalstate.all_from_ensemble(ens)`. -/
def SampleSet.all_from_ensemble (s : SampleSet) (e : EnsembleId) : List Sample :=
  s.filter (fun x => x.ensemble = e)

/-- Modelled from the spec: `apply_samples` merges a list of new Samples
into the state, replacing prior samples for the same replica(s). -/
def SampleSet.apply_samples (s : SampleSet) (new : List Sample) : SampleSet :=
  (s.filter (fun old => ¬ new.any (fun n => n.replica = old.replica))) ++ new

/-- The `replicas` configuration of a PathMover: the sentinel `'all'` or an
explicit list of replica ids (lines 169-172; an `int` argument is wrapped
into a one-element list by the constructor). -/
inductive ReplicaSpec where
  | all
  | lst (reps : List Nat)
deriving DecidableEq, Repr

/-- The `ensembles` argument of `legal_sample_set` / `select_sample`: the
Python value `None`, the sentinel `'all'`, or a list of ensembles (a bare
ensemble is wrapped into a one-element list, lines 208-209). -/
inductive EnsArg where
  | noneArg
  | all
  | lst (l : List EnsembleId)
deriving DecidableEq, Repr

/-- How the stored `self.ensembles` (an `Option`al list) is passed on as an
argument, e.g. in `self.select_sample(globalstate, self.ensembles)`. -/
def ensArgOf : Option (List EnsembleId) → EnsArg
  | none => .noneArg
  | some l => .lst l

/-- `PathMover.legal_sample_set` (lines 183-214): intersection of the
samples of `self.replicas` (all replicas for the `'all'` sentinel) with the
samples of the requested ensembles (argument, else `self.ensembles`, else
`'all'`).  Python's `list(set(a) & set(b))` is rendered as a deduplicated
filter; the order only matters through the explicit `random.choice`
oracle. -/
def legal_sample_set (replicas : ReplicaSpec) (selfEnsembles : Option (List EnsembleId))
    (globalstate : SampleSet) (ensembles : EnsArg) : List Sample :=
  let reps := match replicas with
    | .all => globalstate.replica_list
    | .lst l => l
  let rep_samples := reps.flatMap (fun r => globalstate.all_from_replica r)
  let ens := match ensembles with
    | .noneArg => match selfEnsembles with
      | none => EnsArg.all
      | some l => EnsArg.lst l
    | x => x
  match ens with
  | .all => rep_samples
  | .noneArg => rep_samples
  | .lst l =>
      let ens_samples := l.flatMap (fun e => globalstate.all_from_ensemble e)
      (rep_samples.filter (fun x => ens_samples.contains x)).dedup

/-- `random.choice(seq)` with the uniform draw replaced by the oracle index
`k`: on an empty sequence the subscript raises an implicit IndexError. -/
def random_choice (l : List Sample) (k : Nat) : Except PyErr Sample :=
  match l with
  | [] => .error PyErr.indexError
  | a :: rest => .ok ((a :: rest).get ⟨k % (a :: rest).length, Nat.mod_lt _ (Nat.succ_pos _)⟩)

/-- `PathMover.select_sample` (lines 216-222): `random.choice` over the
legal sample set. -/
def select_sample (replicas : ReplicaSpec) (selfEnsembles : Option (List EnsembleId))
    (globalstate : SampleSet) (ensembles : EnsArg) (k : Nat) : Except PyErr Sample :=
  random_choice (legal_sample_set replicas selfEnsembles globalstate ensembles) k

/-- A Python value appearing in `make_list_of_pairs` input: an atomic item
(no `len()`) or a list. -/
inductive PyObj where
  | atom (n : Nat)
  | lst (l : List Nat)
deriving DecidableEq, Repr

/-- Python `len()` on a `make_list_of_pairs` element: lists have a length,
`len()` of an atomic item raises TypeError. -/
def pyLen : PyObj → Except PyErr Nat
  | .atom _ => .error (.typeError "object of atomic type has no len")
  | .lst l => .ok l.length

/-- The `assert len(elem)==2` loop over a list of lists (lines 47-48);
`len(elem)` on an atomic element raises TypeError before the assert. -/
def check_inner : List PyObj → Except PyErr Unit
  | [] => .ok ()
  | e :: rest =>
      match pyLen e with
      | .error err => .error err
      | .ok n =>
          if n = 2 then check_inner rest
          else .error (.assertionError "List of lists: inner list length != 2")

/-- The pairing `zip(l[0::2], l[1::2])` of a flat even-length list of atoms
(lines 52-54). -/
def chunk_pairs : List PyObj → List PyObj
  | .atom a :: .atom b :: rest => .lst [a, b] :: chunk_pairs rest
  | _ => []

/-- `make_list_of_pairs` (lines 21-58).  `None` is returned unchanged; the
branch on `len(l[0])` decides list-of-lists versus flat (its TypeError is
caught, but `l[0]` of an empty list raises an uncaught IndexError); a list
of lists must consist of pairs (assert), a flat list must have even length
(assert) and is zipped into pairs. -/
def make_list_of_pairs : Option (List PyObj) → Except PyErr (Option (List PyObj))
  | none => .ok none
  | some l =>
    match l with
    | [] => .error PyErr.indexError
    | l0 :: _ =>
        match pyLen l0 with
        | .ok _ =>
            match check_inner l with
            | .error e => .error e
            | .ok _ => .ok (some l)
        | .error _ =>
            if l.length % 2 = 0 then .ok (some (chunk_pairs l))
            else .error (.assertionError "Flattened list: length not divisible by 2")

/-- The direction-specialized `_generate` of the two concrete shooting
movers. -/
inductive ShootDir where
  | forward
  | backward
deriving DecidableEq, Repr

/-- `ShootMover.selection_probability_ratio` (lines 282-287):
`details.start_point.sum_bias / details.final_point.sum_bias`.  The junk
branch is unreachable in `move`, which sets both points first. -/
def ShootMover.selection_probability_ratio (details : MoveDetails) : ℚ :=
  match details.start_point, details.final_point with
  | some sp, some fp => sp.sum_bias / fp.sum_bias
  | _, _ => 0

/-- `ForwardShootMover._generate` (lines 339-365) and
`BackwardShootMover._generate` (lines 371-397): produce the trial
trajectory and the `final_point`.  Forward: the engine extends from the
shooting snapshot and the retained head `start[0:index]` is spliced in
front of the generated segment; the final point keeps the shooting index.
Backward: the engine extends from the time-reversed snapshot, the
generated segment is reversed and spliced before the retained tail
`start[index+1:]`; the final point index is `partial_trajectory.frames - 1`. -/
def ShootMover.generateTrial (env : Env) (selector : Selector) (dir : ShootDir)
    (start : Trajectory) (start_point : ShootingPoint) : Trajectory × ShootingPoint :=
  match dir with
  | .forward =>
      let newSegment := env.generate start_point.snapshot
      let trial := start.take start_point.index ++ newSegment
      (trial, selector.mkPoint trial start_point.index)
  | .backward =>
      let newSegment := env.generate (env.revSnap start_point.snapshot)
      let trial := trajReversed env.revSnap newSegment ++ start.drop (start_point.index + 1)
      (trial, selector.mkPoint trial (newSegment.length - 1))

/-- `ShootMover.move` after the sample selection (lines 296-332): record
start / start point, generate the trial, test full-ensemble membership of
the whole trial, default the result to the start trajectory, and accept
(result := trial) only if the membership test passes and the uniform draw
`rand` falls below the selection probability ratio.  Returns the single
Sample built at lines 327-332. -/
def ShootMover.moveFrom (env : Env) (selector : Selector) (dir : ShootDir)
    (selfId : Nat) (rand : ℚ) (rep_sample : Sample) : Sample :=
  let trajectory := rep_sample.trajectory
  let dynamics_ensemble := rep_sample.ensemble
  let replica := rep_sample.replica
  let start_point := selector.pick trajectory
  let details0 : MoveDetails :=
    { MoveDetails.base with
      accepted := some false
      inputs := some [trajectory]
      mover := some selfId
      start := some trajectory
      start_point := some start_point
      final_point := none }
  let gen := ShootMover.generateTrial env selector dir trajectory start_point
  let details1 : MoveDetails :=
    { details0 with
      trial := some gen.1
      final_point := some gen.2
      trial_is_in_ensemble := some (env.ens dynamics_ensemble gen.1)
      result := some trajectory }
  let details2 : MoveDetails :=
    if env.ens dynamics_ensemble gen.1 then
      if rand < ShootMover.selection_probability_ratio details1 then
        { details1 with accepted := some true, result := some gen.1 }
      else details1
    else details1
  { replica := replica
    trajectory := details2.result.getD trajectory
    ensemble := dynamics_ensemble
    details := some details2
    mover := none }

/-- `ShootMover.move` (lines 292-332): select a legal sample with
`self.select_sample(globalstate, self.ensembles)` (oracle index `k`), then
run the shooting body on it.  Note the Python method returns the bare
Sample `path`, not a list. -/
def ShootMover.move (env : Env) (selector : Selector) (dir : ShootDir)
    (replicas : ReplicaSpec) (selfEnsembles : Option (List EnsembleId)) (selfId : Nat)
    (k : Nat) (rand : ℚ) (globalstate : SampleSet) : Except PyErr Sample :=
  (select_sample replicas selfEnsembles globalstate (ensArgOf selfEnsembles) k).map
    (ShootMover.moveFrom env selector dir selfId rand)

/-- `PathReversalMover.move` (lines 596-624): reverse the selected sample's
trajectory, accept exactly when the reversal is still in the ensemble, and
return the single Sample built at lines 618-624. -/
def PathReversalMover.move (env : Env) (replicas : ReplicaSpec)
    (selfEnsembles : Option (List EnsembleId)) (selfId : Nat) (k : Nat)
    (globalstate : SampleSet) : Except PyErr Sample :=
  (select_sample replicas selfEnsembles globalstate (ensArgOf selfEnsembles) k).map
    (fun rep_sample =>
      let trajectory := rep_sample.trajectory
      let ensemble := rep_sample.ensemble
      let replica := rep_sample.replica
      let reversed_trajectory := trajReversed env.revSnap trajectory
      let accepted := env.ens ensemble reversed_trajectory
      let details : MoveDetails :=
        { MoveDetails.base with
          inputs := some [trajectory]
          mover := some selfId
          trial := some reversed_trajectory
          accepted := some accepted
          acceptance_probability := some (if accepted then 1 else 0)
          result := some (if accepted then reversed_trajectory else trajectory) }
      { replica := replica
        trajectory := if accepted then reversed_trajectory else trajectory
        ensemble := ensemble
        details := some details
        mover := none })

/-- The body of `ReplicaExchange.move` after the `accepted` flag is fixed
(lines 631-670), parameterized by that flag so that both branches of the
if-statement are covered; the method itself instantiates it with the
hardcoded placeholder `accepted = True` (line 630). -/
def ReplicaExchange.moveBody (selfId : Nat) (accepted : Bool)
    (trajectory1 trajectory2 : Trajectory) (ensemble1 ensemble2 : EnsembleId) :
    List Sample :=
  let shared :=
    { MoveDetails.base with
      inputs := some [trajectory1, trajectory2]
      ensembles := some [ensemble1, ensemble2]
      mover := some selfId }
  let details1 : MoveDetails :=
    { shared with
      trial := some trajectory2
      accepted := some accepted
      acceptance_probability := some (if accepted then 1 else 0)
      result := some (if accepted then trajectory2 else trajectory1) }
  let details2 : MoveDetails :=
    { shared with
      trial := some trajectory1
      accepted := some accepted
      acceptance_probability := some (if accepted then 1 else 0)
      result := some (if accepted then trajectory1 else trajectory2) }
  let sample1 : Sample :=
    { replica := none
      trajectory := details1.result.getD trajectory1
      ensemble := ensemble1
      details := some details1
      mover := some selfId }
  let sample2 : Sample :=
    { replica := none
      trajectory := details2.result.getD trajectory2
      ensemble := ensemble2
      details := some details2
      mover := some selfId }
  [sample1, sample2]

/-- `ReplicaExchange.move` (lines 627-670) with the placeholder
`accepted = True` of line 630. -/
def ReplicaExchange.move (selfId : Nat) (trajectory1 trajectory2 : Trajectory)
    (ensemble1 ensemble2 : EnsembleId) : List Sample :=
  ReplicaExchange.moveBody selfId true trajectory1 trajectory2 ensemble1 ensemble2

/-- The loop of `IndependentSequentialMover.move` (lines 459-462), with
sub-movers as abstract list-returning move functions over the restricted
state.  Each iteration calls the sub-mover TWICE, exactly as the source
does: `newsamples = mover.move(subglobal)` is applied to `subglobal` but
dropped from `mysamples`, and the result of the second call
`mover.move(subglobal)` (line 462) is what `mysamples` collects. -/
def independentSeqLoop (movers : List (SampleSet → List Sample))
    (subglobal : SampleSet) : List Sample × SampleSet :=
  match movers with
  | [] => ([], subglobal)
  | mover :: rest =>
      let newsamples := mover subglobal
      let subglobal2 := subglobal.apply_samples newsamples
      let second := mover subglobal2
      let tail := independentSeqLoop rest subglobal2
      (second ++ tail.1, tail.2)

/-- `IndependentSequentialMover.move` (lines 456-464): build the restricted
view `subglobal = SampleSet(self.legal_sample_set(globalstate))` (a fresh
collection, so the loop's `apply_samples` calls mutate only it), run the
loop, and return `mysamples`.  The second component is the object the
`globalstate` argument refers to after the call: no statement of the body
assigns through it.  (In the file as given, line 457 would actually raise
NameError at runtime because `SampleSet` is never imported into
`pathmover.py`; the collaborator is modelled from the spec.) -/
def IndependentSequentialMover.move (replicas : ReplicaSpec)
    (selfEnsembles : Option (List EnsembleId))
    (movers : List (SampleSet → List Sample)) (globalstate : SampleSet) :
    List Sample × SampleSet :=
  let subglobal := legal_sample_set replicas selfEnsembles globalstate .noneArg
  ((independentSeqLoop movers subglobal).1, globalstate)

/-- What the spec says the sequential loop does, for comparison: each
sub-mover runs exactly once, its samples are applied into the restricted
view before the next sub-mover runs, and the concatenation of all produced
samples is returned. -/
def independentSeqLoopSpec (movers : List (SampleSet → List Sample))
    (subglobal : SampleSet) : List Sample × SampleSet :=
  match movers with
  | [] => ([], subglobal)
  | mover :: rest =>
      let newsamples := mover subglobal
      let subglobal2 := subglobal.apply_samples newsamples
      let tail := independentSeqLoopSpec rest subglobal2
      (newsamples ++ tail.1, tail.2)

/-- A Python-level move result as the sequential combinators receive it:
the list the base-class contract promises, or the bare Sample that
`ShootMover.move`, `PathReversalMover.move`, `EnsembleHopMover.move` and
`MixedMover.move` actually return. -/
inductive MoveResult where
  | single (s : Sample)
  | list (l : List Sample)
deriving DecidableEq, Repr

/-- Iterating a Sample, as `mysamples.extend(sample)` (line 492) and
`for sample in newsamples` (line 491, when a sub-mover returned a bare
Sample) attempt to do: Samples are plain records (spec section 3), not
iterable, so Python raises TypeError. -/
def pyIterSample (s : Sample) : Except PyErr (List Sample) :=
  match s with
  | _ => .error (.typeError "Sample object is not iterable")

/-- The inner loop of `PartialAcceptanceSequentialMover.move`
(lines 491-495): for each sample of the sub-move result, extend `mysamples`
WITH THE SAMPLE ITSELF (`mysamples.extend(sample)` iterates the sample
instead of appending it), then stop at the first sample whose
`details.accepted` is False.  The Bool result is `last_accepted`. -/
def partialAcceptanceInner (mysamples : List Sample) :
    List Sample → Except PyErr (List Sample × Bool)
  | [] => .ok (mysamples, true)
  | sample :: rest =>
      match pyIterSample sample with
      | .error e => .error e
      | .ok items =>
          let mysamples2 := mysamples ++ items
          if sample.details.map (fun d => d.accepted) = some (some false) then
            .ok (mysamples2, false)
          else partialAcceptanceInner mysamples2 rest

/-- The outer loop of `PartialAcceptanceSequentialMover.move`
(lines 487-497): run each sub-mover on the (never updated) restricted view,
iterate its result (a bare-Sample result cannot be iterated), and stop
after the first rejected sample. -/
def partialAcceptanceOuter (subglobal : SampleSet) (mysamples : List Sample) :
    List (SampleSet → MoveResult) → Except PyErr (List Sample)
  | [] => .ok mysamples
  | mover :: rest =>
      match mover subglobal with
      | .single _ => .error (.typeError "Sample object is not iterable")
      | .list newsamples =>
          match partialAcceptanceInner mysamples newsamples with
          | .error e => .error e
          | .ok (mysamples2, true) => partialAcceptanceOuter subglobal mysamples2 rest
          | .ok (mysamples2, false) => .ok mysamples2

/-- `PartialAcceptanceSequentialMover.move` (lines 483-499). -/
def PartialAcceptanceSequentialMover.move (replicas : ReplicaSpec)
    (selfEnsembles : Option (List EnsembleId))
    (movers : List (SampleSet → MoveResult)) (globalstate : SampleSet) :
    Except PyErr (List Sample) :=
  let subglobal := legal_sample_set replicas selfEnsembles globalstate .noneArg
  partialAcceptanceOuter subglobal [] movers

/-- `PartialAcceptanceSequentialMover.__init__` (lines 477-481): the
`super()` call names `PartialAccpetanceSequentialMover`, a misspelling
that is defined nowhere, so constructing the mover raises NameError before
any move can run. -/
def PartialAcceptanceSequentialMover.mk (movers : List (SampleSet → MoveResult)) :
    Except PyErr (List (SampleSet → MoveResult)) :=
  match movers with
  | _ => .error (.nameError "global name PartialAccpetanceSequentialMover is not defined")

/-- A Python attribute dictionary, for the `MoveDetails.__init__` kwargs
embedding. -/
inductive PyVal where
  | noneV
  | strV (s : String)
  | natV (n : Nat)
deriving DecidableEq, Repr

/-- Attribute dictionary of a Python object: name-to-value bindings in
insertion order. -/
abbrev Attrs := List (String × PyVal)

/-- Python `setattr`: rebind an existing attribute in place, otherwise
append the new binding. -/
def setAttr : Attrs → String → PyVal → Attrs
  | [], k, v => [(k, v)]
  | (k0, v0) :: rest, k, v =>
      if k0 = k then (k, v) :: rest else (k0, v0) :: setAttr rest k v

/-- Python `getattr` lookup on the attribute dictionary. -/
def getAttr : Attrs → String → Option PyVal
  | [], _ => none
  | (k0, v0) :: rest, k => if k0 = k then some v0 else getAttr rest k

/-- The attribute dictionary after lines 98-103 of `MoveDetails.__init__`:
the six base fields bound to `None`. -/
def moveDetailsBaseAttrs : Attrs :=
  [("inputs", .noneV), ("trial", .noneV), ("result", .noneV),
   ("acceptance_probability", .noneV), ("accepted", .noneV), ("mover", .noneV)]

/-- The loop `for key, value in kwargs: setattr(self, key, value)`
(lines 104-105).  Iterating the kwargs dict yields its KEY strings, so each
key string is unpacked as a two-element sequence of characters: a name of
any other length raises ValueError, and a two-character name `c1 c2`
executes `setattr(self, c1, c2)`. -/
def kwargsLoop : Attrs → List String → Except PyErr Attrs
  | a, [] => .ok a
  | a, key :: rest =>
      match key.toList with
      | [c1, c2] =>
          kwargsLoop (setAttr a (String.mk [c1]) (.strV (String.mk [c2]))) rest
      | _ => .error (.valueError "unpack")

/-- `MoveDetails.__init__(**kwargs)` (lines 97-105) as a function from the
kwargs dictionary to the resulting attribute dictionary: the six base
fields are set to `None`, then the kwargs dict itself is iterated. -/
def MoveDetails.initAttrs (kwargs : List (String × PyVal)) : Except PyErr Attrs :=
  kwargsLoop moveDetailsBaseAttrs (kwargs.map (fun p => p.1))

/-- Decidable equality of embedded Python outcomes, for evaluating the
embedding on concrete inputs. -/
instance {ε α : Type} [DecidableEq ε] [DecidableEq α] : DecidableEq (Except ε α) := fun x y =>
  match x, y with
  | .ok a, .ok b =>
      if h : a = b then .isTrue (congrArg Except.ok h)
      else .isFalse (fun hh => h (Except.ok.inj hh))
  | .error a, .error b =>
      if h : a = b then .isTrue (congrArg Except.error h)
      else .isFalse (fun hh => h (Except.error.inj hh))
  | .ok _, .error _ => .isFalse (fun hh => Except.noConfusion hh)
  | .error _, .ok _ => .isFalse (fun hh => Except.noConfusion hh)

/-- C8 (amended): `make_list_of_pairs` splits a flat list into pairs,
returns a list of pairs unchanged, returns `None` for `None`, and on a flat
list of odd length raises AssertionError (the bare `assert` of line 51) —
not the spec's `InvalidConfigurationError`, which the source never
defines. -/
theorem make_list_of_pairs_behaviour (a b c d : Nat) :
    make_list_of_pairs (some [.atom a, .atom b, .atom c, .atom d]) =
      .ok (some [.lst [a, b], .lst [c, d]]) ∧
    make_list_of_pairs (some [.lst [a, b], .lst [c, d]]) =
      .ok (some [.lst [a, b], .lst [c, d]]) ∧
    make_list_of_pairs none = .ok none ∧
    make_list_of_pairs (some [.atom a, .atom b, .atom c]) =
      .error (.assertionError "Flattened list: length not divisible by 2") := by
  refine ⟨?_, ?_, rfl, ?_⟩ <;> simp [make_list_of_pairs, pyLen, check_inner, chunk_pairs]

/-- C8 (counterexample to the claim as stated): on the odd flat list the
error raised is not `InvalidConfigurationError`. -/
theorem make_list_of_pairs_odd_not_invalidConfiguration :
    make_list_of_pairs (some [.atom 1, .atom 2, .atom 3]) ≠
      .error PyErr.invalidConfigurationError := by
  decide

/-- C6 (amended): when the legal sample set is empty, `select_sample` fails
with the implicit IndexError that `random.choice` raises on an empty
sequence — no explicit `EmptySelectionError` is raised (none exists in the
source). -/
theorem select_sample_empty_raises_indexError (replicas : ReplicaSpec)
    (selfEnsembles : Option (List EnsembleId)) (globalstate : SampleSet)
    (ensembles : EnsArg) (k : Nat)
    (h : legal_sample_set replicas selfEnsembles globalstate ensembles = []) :
    select_sample replicas selfEnsembles globalstate ensembles k =
      .error PyErr.indexError := by
  simp only [select_sample, h, random_choice]

/-- C6 witness: a mover constrained to replica 0 over an empty global state
has an empty legal set, and `select_sample` returns the IndexError. -/
theorem select_sample_empty_raises_indexError_witness :
    legal_sample_set (ReplicaSpec.lst [0]) none [] EnsArg.all = [] ∧
    select_sample (ReplicaSpec.lst [0]) none [] EnsArg.all 0 =
      .error PyErr.indexError :=
  ⟨by decide, select_sample_empty_raises_indexError _ _ _ _ 0 (by decide)⟩

/-- C6 (counterexample to the claim as stated): with an empty legal sample
set, `select_sample` does not raise `EmptySelectionError`. -/
theorem select_sample_empty_not_emptySelectionError :
    select_sample (ReplicaSpec.lst [0]) none [] EnsArg.all 0 ≠
      .error PyErr.emptySelectionError := by
  decide

/-- Strings of different lengths are different. -/
theorem str_ne_of_length_ne {s t : String} (h : s.length ≠ t.length) : s ≠ t :=
  fun he => h (by rw [he])

/-- Looking up the attribute just set returns the value just bound. -/
theorem getAttr_setAttr_self (a : Attrs) (k : String) (v : PyVal) :
    getAttr (setAttr a k v) k = some v := by
  induction a with
  | nil => simp [setAttr, getAttr]
  | cons p rest ih =>
      obtain ⟨k0, v0⟩ := p
      by_cases h : k0 = k
      · simp [setAttr, h, getAttr]
      · simp [setAttr, h, getAttr, ih]

/-- Setting one attribute leaves lookups of other names unchanged. -/
theorem getAttr_setAttr_ne (a : Attrs) (k k2 : String) (v : PyVal) (h : k ≠ k2) :
    getAttr (setAttr a k v) k2 = getAttr a k2 := by
  induction a with
  | nil => simp [setAttr, getAttr, h]
  | cons p rest ih =>
      obtain ⟨k0, v0⟩ := p
      by_cases h0 : k0 = k
      · subst h0
        simp [setAttr, getAttr, h]
      · by_cases h2 : k0 = k2
        · simp only [setAttr, getAttr, if_neg h0, if_pos h2]
        · simp only [setAttr, getAttr, if_neg h0, if_neg h2]
          exact ih

/-- C10: `MoveDetails()` with no keyword arguments leaves the six base
fields bound to `None`; with a keyword argument the constructor iterates
the kwargs dict itself (yielding the key string), so a keyword whose name
is not exactly two characters long raises ValueError, and a two-character
keyword name sets an attribute named after the name's first character, with
the name's second character as its value — nothing is ever stored under the
keyword's own name. -/
theorem moveDetails_kwargs_bug (name : String) (v : PyVal) :
    MoveDetails.initAttrs [] = .ok moveDetailsBaseAttrs ∧
    (name.length ≠ 2 →
      MoveDetails.initAttrs [(name, v)] = .error (.valueError "unpack")) ∧
    (∀ c1 c2 : Char, name = String.mk [c1, c2] →
      MoveDetails.initAttrs [(name, v)] =
        .ok (setAttr moveDetailsBaseAttrs (String.mk [c1]) (.strV (String.mk [c2]))) ∧
      getAttr (setAttr moveDetailsBaseAttrs (String.mk [c1]) (.strV (String.mk [c2])))
        (String.mk [c1]) = some (.strV (String.mk [c2])) ∧
      getAttr (setAttr moveDetailsBaseAttrs (String.mk [c1]) (.strV (String.mk [c2])))
        name = none) := by
  refine ⟨rfl, ?_, ?_⟩
  · intro h
    have hlen : name.data.length ≠ 2 := h
    rcases hl : name.data with _ | ⟨c1, _ | ⟨c2, _ | _⟩⟩
    · simp [MoveDetails.initAttrs, kwargsLoop, hl]
    · simp [MoveDetails.initAttrs, kwargsLoop, hl]
    · exact absurd (by rw [hl]; rfl) hlen
    · simp [MoveDetails.initAttrs, kwargsLoop, hl]
  · intro c1 c2 hname
    subst hname
    have hlen2 : (String.mk [c1, c2]).length = 2 := rfl
    refine ⟨?_, getAttr_setAttr_self _ _ _, ?_⟩
    · simp [MoveDetails.initAttrs, kwargsLoop]
    · have hlen1 : (String.mk [c1]).length = 1 := rfl
      rw [getAttr_setAttr_ne _ _ _ _
        (str_ne_of_length_ne (by rw [hlen1, hlen2]; decide))]
      have h1 : ("inputs" : String) ≠ String.mk [c1, c2] :=
        str_ne_of_length_ne (by rw [hlen2]; decide)
      have h2 : ("trial" : String) ≠ String.mk [c1, c2] :=
        str_ne_of_length_ne (by rw [hlen2]; decide)
      have h3 : ("result" : String) ≠ String.mk [c1, c2] :=
        str_ne_of_length_ne (by rw [hlen2]; decide)
      have h4 : ("acceptance_probability" : String) ≠ String.mk [c1, c2] :=
        str_ne_of_length_ne (by rw [hlen2]; decide)
      have h5 : ("accepted" : String) ≠ String.mk [c1, c2] :=
        str_ne_of_length_ne (by rw [hlen2]; decide)
      have h6 : ("mover" : String) ≠ String.mk [c1, c2] :=
        str_ne_of_length_ne (by rw [hlen2]; decide)
      simp [getAttr, moveDetailsBaseAttrs, h1, h2, h3, h4, h5, h6]

/-- C10 witness: `MoveDetails(abc=7)` raises ValueError; `MoveDetails(ab=7)`
sets attribute `a` to the string `b` and stores nothing under `ab`. -/
theorem moveDetails_kwargs_bug_witness :
    MoveDetails.initAttrs [(String.mk ['a', 'b', 'c'], PyVal.natV 7)] =
      .error (.valueError "unpack") ∧
    MoveDetails.initAttrs [(String.mk ['a', 'b'], PyVal.natV 7)] =
      .ok (setAttr moveDetailsBaseAttrs (String.mk ['a']) (.strV (String.mk ['b']))) ∧
    getAttr (setAttr moveDetailsBaseAttrs (String.mk ['a']) (.strV (String.mk ['b'])))
      (String.mk ['a', 'b']) = none :=
  ⟨(moveDetails_kwargs_bug (String.mk ['a', 'b', 'c']) (PyVal.natV 7)).2.1 (by decide),
   ((moveDetails_kwargs_bug (String.mk ['a', 'b']) (PyVal.natV 7)).2.2 'a' 'b' rfl).1,
   ((moveDetails_kwargs_bug (String.mk ['a', 'b']) (PyVal.natV 7)).2.2 'a' 'b' rfl).2.2⟩

/-- C9: for either value of the swap-acceptance flag, `ReplicaExchange`
returns exactly two samples; on acceptance their trajectories are swapped
(`t2` under `e1` and `t1` under `e2`), on rejection they are `t1` and `t2`
unchanged; the two samples' accepted flags are always equal; both details
carry the shared inputs list `[t1, t2]`; and `move` itself runs the body
with the placeholder flag `accepted = True`. -/
theorem replicaExchange_two_complementary_samples (selfId : Nat) (accepted : Bool)
    (t1 t2 : Trajectory) (e1 e2 : EnsembleId) :
    (ReplicaExchange.moveBody selfId accepted t1 t2 e1 e2).length = 2 ∧
    (ReplicaExchange.moveBody selfId accepted t1 t2 e1 e2).map
        (fun s => s.trajectory) = (if accepted then [t2, t1] else [t1, t2]) ∧
    (ReplicaExchange.moveBody selfId accepted t1 t2 e1 e2).map
        (fun s => s.ensemble) = [e1, e2] ∧
    (ReplicaExchange.moveBody selfId accepted t1 t2 e1 e2).map
        (fun s => s.details.map (fun d => d.accepted)) =
      [some (some accepted), some (some accepted)] ∧
    (ReplicaExchange.moveBody selfId accepted t1 t2 e1 e2).map
        (fun s => s.details.map (fun d => d.inputs)) =
      [some (some [t1, t2]), some (some [t1, t2])] ∧
    ReplicaExchange.move selfId t1 t2 e1 e2 =
      ReplicaExchange.moveBody selfId true t1 t2 e1 e2 := by
  cases accepted <;>
    simp [ReplicaExchange.moveBody, ReplicaExchange.move]

/-- C1: a shooting move on a selected sample keeps the sample's ensemble,
records in `trial_is_in_ensemble` the full-ensemble membership of the whole
trial, and either is accepted — the returned Sample carries the trial
trajectory, which satisfies the full target ensemble predicate — or is
rejected — the returned Sample carries the original input trajectory
unchanged.  The first conjunct ties the full `move` (selection included) to
the body `moveFrom`. -/
theorem shootMove_accepted_trial_rejected_original (env : Env) (selector : Selector)
    (dir : ShootDir) (selfId : Nat) (rand : ℚ) (rep_sample : Sample)
    (replicas : ReplicaSpec) (selfEnsembles : Option (List EnsembleId)) (k : Nat)
    (globalstate : SampleSet) :
    ShootMover.move env selector dir replicas selfEnsembles selfId k rand globalstate =
      (select_sample replicas selfEnsembles globalstate (ensArgOf selfEnsembles) k).map
        (ShootMover.moveFrom env selector dir selfId rand) ∧
    ∃ d : MoveDetails,
      (ShootMover.moveFrom env selector dir selfId rand rep_sample).details = some d ∧
      (ShootMover.moveFrom env selector dir selfId rand rep_sample).ensemble =
        rep_sample.ensemble ∧
      d.trial_is_in_ensemble =
        some (env.ens rep_sample.ensemble (d.trial.getD [])) ∧
      ((d.accepted = some true ∧
          d.trial =
            some (ShootMover.moveFrom env selector dir selfId rand rep_sample).trajectory ∧
          env.ens rep_sample.ensemble
            (ShootMover.moveFrom env selector dir selfId rand rep_sample).trajectory = true) ∨
        (d.accepted = some false ∧
          (ShootMover.moveFrom env selector dir selfId rand rep_sample).trajectory =
            rep_sample.trajectory)) := by
  refine ⟨rfl, ?_⟩
  simp only [ShootMover.moveFrom]
  refine ⟨_, rfl, trivial, ?_, ?_⟩
  · split
    · split
      · rfl
      · rfl
    · rfl
  · split
    · rename_i h1
      split
      · refine Or.inl ⟨rfl, ?_, ?_⟩
        · rfl
        · exact h1
      · exact Or.inr ⟨rfl, rfl⟩
    · exact Or.inr ⟨rfl, rfl⟩

/-- A concrete external environment for evaluating the embedding: every
trajectory is in every ensemble, the engine always produces the segment
`[5]`, and snapshot time reversal is the identity. -/
def envC : Env := ⟨fun _ _ => true, fun _ => [5], fun s => s⟩

/-- A concrete shooting-point selector: `pick` chooses index 0 with bias 1;
rebuilt points carry bias 2. -/
def selectorC : Selector :=
  ⟨fun t => ⟨0, t.headD 0, 1⟩, fun t i => ⟨i, t.headD 0, 2⟩⟩

/-- A concrete global-state sample: replica 0, trajectory [1,2,3],
ensemble 0. -/
def sampleC : Sample := ⟨some 0, [1, 2, 3], 0, none, none⟩

/-- A concrete global state holding `sampleC`. -/
def gsC : SampleSet := [sampleC]

/-- `gsC` extended by a sample that belongs to no replica: its legal sample
sets coincide with those of `gsC`. -/
def gsC2 : SampleSet := [sampleC, ⟨none, [9], 1, none, none⟩]

/-- A sub-mover whose returned sample records the current size of the state
it is run on (used to observe how often and on which state a sequential
combinator invokes its sub-movers). -/
def counterMoverC : SampleSet → List Sample :=
  fun s => [⟨some s.length, [7], 0, none, none⟩]

/-- C2: when the trial passes the full-ensemble membership test, the
shooting move records the shooting point and the recomputed final point in
its details, and is accepted exactly when the single uniform draw `rand`
lies below `start_point.sum_bias / final_point.sum_bias`; the Lebesgue
measure of the accepting draws inside [0,1) is `min 1 ratio`, i.e. the
trial is accepted with probability `min(1, start.bias / final.bias)`. -/
theorem shootMover_metropolis_acceptance (env : Env) (selector : Selector)
    (dir : ShootDir) (selfId : Nat) (rand : ℚ) (rep_sample : Sample)
    (hpass : env.ens rep_sample.ensemble
      (ShootMover.generateTrial env selector dir rep_sample.trajectory
        (selector.pick rep_sample.trajectory)).1 = true) :
    ∃ d : MoveDetails,
      (ShootMover.moveFrom env selector dir selfId rand rep_sample).details = some d ∧
      d.start_point = some (selector.pick rep_sample.trajectory) ∧
      d.final_point = some (ShootMover.generateTrial env selector dir
        rep_sample.trajectory (selector.pick rep_sample.trajectory)).2 ∧
      d.trial_is_in_ensemble = some true ∧
      (d.accepted = some true ↔
        rand < (selector.pick rep_sample.trajectory).sum_bias /
          (ShootMover.generateTrial env selector dir rep_sample.trajectory
            (selector.pick rep_sample.trajectory)).2.sum_bias) ∧
      MeasureTheory.volume
          {u : ℝ | u ∈ Set.Ico (0 : ℝ) 1 ∧
            u < (((selector.pick rep_sample.trajectory).sum_bias /
              (ShootMover.generateTrial env selector dir rep_sample.trajectory
                (selector.pick rep_sample.trajectory)).2.sum_bias : ℚ) : ℝ)} =
        ENNReal.ofReal (min 1 (((selector.pick rep_sample.trajectory).sum_bias /
          (ShootMover.generateTrial env selector dir rep_sample.trajectory
            (selector.pick rep_sample.trajectory)).2.sum_bias : ℚ) : ℝ)) := by
  simp only [ShootMover.moveFrom]
  rw [if_pos hpass]
  refine ⟨_, rfl, ?_, ?_, ?_, ?_, ?_⟩
  · split <;> rfl
  · split <;> rfl
  · split <;> rw [hpass]
  · split
    · rename_i h2
      exact iff_of_true rfl h2
    · rename_i h2
      exact iff_of_false (by simp) h2
  · have hset : {u : ℝ | u ∈ Set.Ico (0 : ℝ) 1 ∧
        u < (((selector.pick rep_sample.trajectory).sum_bias /
          (ShootMover.generateTrial env selector dir rep_sample.trajectory
            (selector.pick rep_sample.trajectory)).2.sum_bias : ℚ) : ℝ)} =
        Set.Ico (0 : ℝ) (min 1 (((selector.pick rep_sample.trajectory).sum_bias /
          (ShootMover.generateTrial env selector dir rep_sample.trajectory
            (selector.pick rep_sample.trajectory)).2.sum_bias : ℚ) : ℝ)) := by
      ext u
      simp only [Set.mem_setOf_eq, Set.mem_Ico, lt_min_iff]
      tauto
    rw [hset, Real.volume_Ico, sub_zero]

/-- C2 witness: on `sampleC` with the concrete environment, the trial
passes, the ratio is 1/2, and the draw 1/4 is accepted. -/
theorem shootMover_metropolis_acceptance_witness :
    envC.ens sampleC.ensemble
      (ShootMover.generateTrial envC selectorC ShootDir.forward sampleC.trajectory
        (selectorC.pick sampleC.trajectory)).1 = true ∧
    (∃ d : MoveDetails,
      (ShootMover.moveFrom envC selectorC ShootDir.forward 0 (1/4 : ℚ) sampleC).details =
        some d ∧
      d.start_point = some (selectorC.pick sampleC.trajectory) ∧
      d.final_point = some (ShootMover.generateTrial envC selectorC ShootDir.forward
        sampleC.trajectory (selectorC.pick sampleC.trajectory)).2 ∧
      d.trial_is_in_ensemble = some true ∧
      (d.accepted = some true ↔
        (1/4 : ℚ) < (selectorC.pick sampleC.trajectory).sum_bias /
          (ShootMover.generateTrial envC selectorC ShootDir.forward sampleC.trajectory
            (selectorC.pick sampleC.trajectory)).2.sum_bias) ∧
      MeasureTheory.volume
          {u : ℝ | u ∈ Set.Ico (0 : ℝ) 1 ∧
            u < (((selectorC.pick sampleC.trajectory).sum_bias /
              (ShootMover.generateTrial envC selectorC ShootDir.forward sampleC.trajectory
                (selectorC.pick sampleC.trajectory)).2.sum_bias : ℚ) : ℝ)} =
        ENNReal.ofReal (min 1 (((selectorC.pick sampleC.trajectory).sum_bias /
          (ShootMover.generateTrial envC selectorC ShootDir.forward sampleC.trajectory
            (selectorC.pick sampleC.trajectory)).2.sum_bias : ℚ) : ℝ))) :=
  ⟨rfl, shootMover_metropolis_acceptance envC selectorC ShootDir.forward 0 (1/4 : ℚ)
    sampleC rfl⟩

/-- C3: movers only read the global state.  The composite
`IndependentSequentialMover` returns its `globalstate` argument unchanged —
every `apply_samples` call in its body targets the locally constructed
restricted view — and the leaf movers consult the global state only through
the `legal_sample_set` read inside `select_sample`: two states with the
same legal sample set yield identical moves. -/
theorem movers_read_only_globalstate (replicas : ReplicaSpec)
    (selfEnsembles : Option (List EnsembleId)) (movers : List (SampleSet → List Sample))
    (globalstate : SampleSet) (env : Env) (selector : Selector) (dir : ShootDir)
    (selfId k : Nat) (rand : ℚ) :
    (IndependentSequentialMover.move replicas selfEnsembles movers globalstate).2 =
      globalstate ∧
    (∀ gs2 : SampleSet,
      legal_sample_set replicas selfEnsembles gs2 (ensArgOf selfEnsembles) =
        legal_sample_set replicas selfEnsembles globalstate (ensArgOf selfEnsembles) →
      ShootMover.move env selector dir replicas selfEnsembles selfId k rand gs2 =
        ShootMover.move env selector dir replicas selfEnsembles selfId k rand globalstate) ∧
    (∀ gs2 : SampleSet,
      legal_sample_set replicas selfEnsembles gs2 (ensArgOf selfEnsembles) =
        legal_sample_set replicas selfEnsembles globalstate (ensArgOf selfEnsembles) →
      PathReversalMover.move env replicas selfEnsembles selfId k gs2 =
        PathReversalMover.move env replicas selfEnsembles selfId k globalstate) := by
  refine ⟨rfl, ?_, ?_⟩
  · intro gs2 h
    simp only [ShootMover.move, select_sample, h]
  · intro gs2 h
    simp only [PathReversalMover.move, select_sample, h]

/-- C3 witness: a concrete composite call leaves the global state `gsC`
untouched, and `gsC2` (which adds a replica-less sample, leaving the legal
set unchanged) produces the same shooting move as `gsC`. -/
theorem movers_read_only_globalstate_witness :
    (IndependentSequentialMover.move .all none [counterMoverC] gsC).2 = gsC ∧
    legal_sample_set .all none gsC2 (ensArgOf none) =
      legal_sample_set .all none gsC (ensArgOf none) ∧
    ShootMover.move envC selectorC .forward .all none 0 0 (1/4 : ℚ) gsC2 =
      ShootMover.move envC selectorC .forward .all none 0 0 (1/4 : ℚ) gsC :=
  ⟨(movers_read_only_globalstate .all none [counterMoverC] gsC envC selectorC
      .forward 0 0 (1/4 : ℚ)).1,
   by decide,
   (movers_read_only_globalstate .all none [counterMoverC] gsC envC selectorC
      .forward 0 0 (1/4 : ℚ)).2.1 gsC2 (by decide)⟩

/-- C4: a sample carrying accepted details (for driving the sequential
combinators). -/
def sampleAccC : Sample :=
  ⟨some 0, [1], 0, some { MoveDetails.base with accepted := some true }, none⟩

/-- C4: a sample carrying rejected details. -/
def sampleRejC : Sample :=
  ⟨some 1, [2], 0, some { MoveDetails.base with accepted := some false }, none⟩

/-- C4: sub-mover A, returning one accepted sample as a proper list. -/
def moverAcceptC : SampleSet → MoveResult := fun _ => .list [sampleAccC]

/-- C4: sub-mover B, returning one rejected sample as a proper list. -/
def moverRejC : SampleSet → MoveResult := fun _ => .list [sampleRejC]

/-- C4 (the code evaluated at the failing input): constructing
`PartialAcceptanceSequentialMover([A, B, C])` raises NameError (the
`super()` call misspells the class name), and the move body itself crashes
with TypeError while processing A's very first, accepted sample, because
`mysamples.extend(sample)` iterates the Sample instead of appending it —
the documented stop-at-first-rejection result is never produced. -/
theorem partialAcceptance_crashes :
    PartialAcceptanceSequentialMover.mk [moverAcceptC, moverRejC, moverAcceptC] =
      .error (.nameError "global name PartialAccpetanceSequentialMover is not defined") ∧
    PartialAcceptanceSequentialMover.move .all none
        [moverAcceptC, moverRejC, moverAcceptC] [] =
      .error (.typeError "Sample object is not iterable") := by
  exact ⟨rfl, by decide⟩

/-- C5 (the code evaluated at the failing input): with a single sub-mover
whose returned sample records the current size of the restricted state, the
composite returns the sample of the SECOND invocation (replica 1, because
the state had already absorbed the first invocation's sample), while the
documented single-invocation semantics (`independentSeqLoopSpec`) returns
the first invocation's sample (replica 0): each sub-mover is invoked twice,
not exactly once. -/
theorem independentSeq_double_invocation :
    (IndependentSequentialMover.move .all none [counterMoverC] []).1 =
      [⟨some 1, [7], 0, none, none⟩] ∧
    (independentSeqLoopSpec [counterMoverC]
        (legal_sample_set .all none [] .noneArg)).1 =
      [⟨some 0, [7], 0, none, none⟩] ∧
    (IndependentSequentialMover.move .all none [counterMoverC] []).1 ≠
      (independentSeqLoopSpec [counterMoverC]
        (legal_sample_set .all none [] .noneArg)).1 := by
  refine ⟨by decide, by decide, by decide⟩

/-- C7: a shooting mover plugged in as a sub-mover hands the combinator the
bare Sample that `ShootMover.move` returns. -/
def shootAsSubmover : SampleSet → MoveResult := fun gs =>
  match ShootMover.move envC selectorC .forward .all none 0 0 (1/4 : ℚ) gs with
  | .ok s => .single s
  | .error _ => .list []

/-- C7 (the code evaluated at the failing input): `ShootMover.move` and
`PathReversalMover.move` return a single bare Sample (`return path`), not
the `list of Sample` the base-class contract documents; a sequential
combinator that iterates the promised list over such a result raises
TypeError. -/
theorem moves_return_bare_sample_not_list :
    (∃ s : Sample,
      ShootMover.move envC selectorC .forward .all none 0 0 (1/4 : ℚ) gsC = .ok s) ∧
    (∃ s : Sample, PathReversalMover.move envC .all none 0 0 gsC = .ok s) ∧
    PartialAcceptanceSequentialMover.move .all none [shootAsSubmover] gsC =
      .error (.typeError "Sample object is not iterable") := by
  exact ⟨⟨_, rfl⟩, ⟨_, rfl⟩, by decide⟩
